import Mathlib

/-!
# Squarix: the game loop of `Squarix/Code/main-old.cpp`

A shallow embedding of the per-frame game loop (`main`, lines 248-344),
`updateEnemies` (lines 143-173) and `respawnPlayer` (lines 187-190).

* `int` values are `Int`.  Positions stay within the screen, `lives` starts at 3
  and `score` grows by at most one per frame, so no 32-bit overflow is reachable
  and plain integer arithmetic is used.
* `Uint32` tick values are `Nat`; the unsigned subtraction `a - b` is `sub32`,
  taken modulo `2^32`.
* `rand()` is an oracle `rand : Nat → Nat`: `rand k` is the value returned by the
  `k`-th call.  The number of calls made so far is threaded through the state.
  `rand() % m` is the truncating remainder of C++, `Int.tmod`; the source divides
  by zero when `m = 0`, so results about it are stated for screens larger than
  the entity size.
* Rendering, text and event polling are external; only the quit event and the
  four direction keys reach the state.
-/

namespace Squarix

/-! ## Constants (lines 10-20) -/

def PLAYER_SIZE : Int := 20
def PLAYER_SPEED : Int := 5
def INITIAL_LIVES : Int := 3
def ENEMY_SIZE : Int := 20
def ENEMY_SPEED : Int := 2
def NUM_ENEMIES : Nat := 5
def SCORE_INCREMENT_INTERVAL : Nat := 1000
def IMMUNITY_DURATION : Nat := 3000

/-- Unsigned 32-bit subtraction `a - b` on tick values. -/
def sub32 (a b : Nat) : Nat := (a % 4294967296 + 4294967296 - b % 4294967296) % 4294967296

/-- Structure for enemies (lines 28-31). -/
structure Enemy where
  x : Int
  y : Int
  active : Bool
deriving DecidableEq

/-! ## updateEnemies (lines 143-173) -/

/-- Lines 147-150: the four pursuit statements, executed one after the other. -/
def pursue (e : Enemy) (playerX playerY : Int) : Enemy :=
  let x1 := if e.x < playerX then e.x + ENEMY_SPEED else e.x
  let x2 := if x1 > playerX then x1 - ENEMY_SPEED else x1
  let y1 := if e.y < playerY then e.y + ENEMY_SPEED else e.y
  let y2 := if y1 > playerY then y1 - ENEMY_SPEED else y1
  { e with x := x2, y := y2 }

/-- Lines 153-156: the four boundary statements, executed one after the other. -/
def clampEnemy (e : Enemy) (screenWidth screenHeight : Int) : Enemy :=
  let x1 := if e.x < 0 then 0 else e.x
  let x2 := if x1 > screenWidth - ENEMY_SIZE then screenWidth - ENEMY_SIZE else x1
  let y1 := if e.y < 0 then 0 else e.y
  let y2 := if y1 > screenHeight - ENEMY_SIZE then screenHeight - ENEMY_SIZE else y1
  { e with x := x2, y := y2 }

/-- Body of the first loop of `updateEnemies` (lines 145-157) for one enemy. -/
def moveEnemy (e : Enemy) (playerX playerY screenWidth screenHeight : Int) : Enemy :=
  if e.active then clampEnemy (pursue e playerX playerY) screenWidth screenHeight else e

/-- Body of the inner loop of the enemy-enemy check (lines 163-170) for the pair
`(i, j)`.  The state is the enemy vector and the number of `rand` calls made. -/
def resolvePair (rand : Nat → Nat) (screenWidth screenHeight : Int) (i j : Nat)
    (st : List Enemy × Nat) : List Enemy × Nat :=
  match st.1[i]?, st.1[j]? with
  | some a, some b =>
    if a.active && b.active
        && decide ((Int.natAbs (a.x - b.x) : Int) < ENEMY_SIZE)
        && decide ((Int.natAbs (a.y - b.y) : Int) < ENEMY_SIZE) then
      (st.1.set j { b with x := Int.tmod (rand st.2) (screenWidth - ENEMY_SIZE),
                            y := Int.tmod (rand (st.2 + 1)) (screenHeight - ENEMY_SIZE) },
       st.2 + 2)
    else st
  | _, _ => st

/-- Inner loop `for (j = i + 1; j < enemies.size(); ++j)` (line 162). -/
def resolveRow (rand : Nat → Nat) (screenWidth screenHeight : Int) (n i : Nat)
    (st : List Enemy × Nat) : List Enemy × Nat :=
  (List.range' (i + 1) (n - (i + 1))).foldl
    (fun acc j => resolvePair rand screenWidth screenHeight i j acc) st

/-- Second loop of `updateEnemies` (lines 161-172). -/
def resolveEnemyCollisions (rand : Nat → Nat) (screenWidth screenHeight : Int)
    (st : List Enemy × Nat) : List Enemy × Nat :=
  (List.range st.1.length).foldl
    (fun acc i => resolveRow rand screenWidth screenHeight st.1.length i acc) st

/-- Function `updateEnemies` (lines 143-173): pursuit and clamping of every enemy,
then the pairwise relocation pass. -/
def updateEnemies (rand : Nat → Nat) (st : List Enemy × Nat)
    (playerX playerY screenWidth screenHeight : Int) : List Enemy × Nat :=
  resolveEnemyCollisions rand screenWidth screenHeight
    (st.1.map (fun e => moveEnemy e playerX playerY screenWidth screenHeight), st.2)

/-! ## The game state and one frame of `main` -/

/-- Local variables of `main` (lines 228-246) plus the number of `rand` calls. -/
structure Game where
  playerX : Int
  playerY : Int
  score : Int
  lives : Int
  lastScoreUpdate : Nat
  immune : Bool
  immuneStartTime : Nat
  enemies : List Enemy
  lastTick : Nat
  lastCollision : Nat
  quit : Bool
  randCalls : Nat
deriving DecidableEq

/-- What one frame reads from outside: `SDL_GetTicks()`, whether an `SDL_QUIT`
event was polled, and the state of the four direction keys. -/
structure Input where
  tick : Nat
  quitEvent : Bool
  keyW : Bool
  keyS : Bool
  keyA : Bool
  keyD : Bool
deriving DecidableEq

/-- Function `respawnPlayer` (lines 187-190). -/
def respawnPlayer (rand : Nat → Nat) (s : Game) (screenWidth screenHeight : Int) : Game :=
  { s with playerX := Int.tmod (rand s.randCalls) (screenWidth - PLAYER_SIZE),
           playerY := Int.tmod (rand (s.randCalls + 1)) (screenHeight - PLAYER_SIZE),
           randCalls := s.randCalls + 2 }

/-- Lines 253-257: the event loop sets `quit` on `SDL_QUIT`. -/
def pollEvents (s : Game) (i : Input) : Game :=
  if i.quitEvent then { s with quit := true } else s

/-- Lines 261-272: the four key statements, executed one after the other. -/
def movePlayer (s : Game) (i : Input) : Game :=
  let y1 := if i.keyW then s.playerY - PLAYER_SPEED else s.playerY
  let y2 := if i.keyS then y1 + PLAYER_SPEED else y1
  let x1 := if i.keyA then s.playerX - PLAYER_SPEED else s.playerX
  let x2 := if i.keyD then x1 + PLAYER_SPEED else x1
  { s with playerX := x2, playerY := y2 }

/-- Lines 260-273: the direction keys move the player unless immune. -/
def handleKeys (s : Game) (i : Input) : Game :=
  if !s.immune then movePlayer s i else s

/-- Lines 276-279: player boundary check. -/
def clampPlayer (s : Game) (screenWidth screenHeight : Int) : Game :=
  let x1 := if s.playerX < 0 then 0 else s.playerX
  let x2 := if x1 > screenWidth - PLAYER_SIZE then screenWidth - PLAYER_SIZE else x1
  let y1 := if s.playerY < 0 then 0 else s.playerY
  let y2 := if y1 > screenHeight - PLAYER_SIZE then screenHeight - PLAYER_SIZE else y1
  { s with playerX := x2, playerY := y2 }

/-- The overlap test of lines 283-285 against the current player position. -/
def hits (s : Game) (e : Enemy) : Bool :=
  e.active && decide (s.playerX < e.x + ENEMY_SIZE) && decide (s.playerX + PLAYER_SIZE > e.x)
    && decide (s.playerY < e.y + ENEMY_SIZE) && decide (s.playerY + PLAYER_SIZE > e.y)

/-- Body of the collision loop (lines 283-297) for one enemy. -/
def collideWith (rand : Nat → Nat) (screenWidth screenHeight : Int) (currentTick : Nat)
    (s : Game) (e : Enemy) : Game :=
  if hits s e then
    let s1 := { s with lives := s.lives - 1 }
    if s1.lives ≤ 0 then { s1 with quit := true }
    else
      { respawnPlayer rand s1 screenWidth screenHeight with
        immune := true, immuneStartTime := currentTick, lastCollision := currentTick }
  else s

/-- Lines 281-299: the collision test, gated once, before the loop, by the
immunity flag and the cooldown. -/
def checkCollisions (rand : Nat → Nat) (screenWidth screenHeight : Int) (currentTick : Nat)
    (s : Game) : Game :=
  if !s.immune && decide (sub32 currentTick s.lastCollision ≥ 100) then
    s.enemies.foldl (collideWith rand screenWidth screenHeight currentTick) s
  else s

/-- Lines 302-304: enemies are updated unless the player is immune. -/
def enemiesPhase (rand : Nat → Nat) (screenWidth screenHeight : Int) (s : Game) : Game :=
  if !s.immune then
    let r := updateEnemies rand (s.enemies, s.randCalls) s.playerX s.playerY screenWidth screenHeight
    { s with enemies := r.1, randCalls := r.2 }
  else s

/-- Lines 307-310: score update. -/
def updateScore (currentTick : Nat) (s : Game) : Game :=
  if sub32 currentTick s.lastScoreUpdate ≥ SCORE_INCREMENT_INTERVAL then
    { s with score := s.score + 1, lastScoreUpdate := currentTick }
  else s

/-- Lines 338-340: immunity expiry, at the end of the frame. -/
def handleImmunity (currentTick : Nat) (s : Game) : Game :=
  if s.immune && decide (sub32 currentTick s.immuneStartTime ≥ IMMUNITY_DURATION) then
    { s with immune := false }
  else s

/-- One iteration of the `while (!quit)` loop (lines 249-343). -/
def frame (rand : Nat → Nat) (screenWidth screenHeight : Int) (s : Game) (i : Input) : Game :=
  let s1 := pollEvents s i
  let s2 := handleKeys s1 i
  let s3 := clampPlayer s2 screenWidth screenHeight
  let s4 := checkCollisions rand screenWidth screenHeight i.tick s3
  let s5 := enemiesPhase rand screenWidth screenHeight s4
  let s6 := updateScore i.tick s5
  let s7 := handleImmunity i.tick s6
  { s7 with lastTick := i.tick }

/-- The loop `while (!quit)`: frames are processed until `quit` is set. -/
def run (rand : Nat → Nat) (screenWidth screenHeight : Int) : Game → List Input → Game
  | s, [] => s
  | s, i :: rest =>
    if s.quit then s else run rand screenWidth screenHeight (frame rand screenWidth screenHeight s i) rest

/-- Lines 237-243: the `k`-th and following `rand` calls place `n` active enemies. -/
def spawnEnemies (rand : Nat → Nat) (screenWidth screenHeight : Int) : Nat → Nat → List Enemy
  | _, 0 => []
  | k, n + 1 =>
    { x := Int.tmod (rand k) (screenWidth - ENEMY_SIZE),
      y := Int.tmod (rand (k + 1)) (screenHeight - ENEMY_SIZE),
      active := true } :: spawnEnemies rand screenWidth screenHeight (k + 2) n

/-- Lines 228-246: the state on entry to the loop.  `t0` and `t1` are the two
`SDL_GetTicks()` readings of lines 233 and 245. -/
def initGame (rand : Nat → Nat) (screenWidth screenHeight : Int) (t0 t1 : Nat) : Game :=
  { playerX := Int.tdiv screenWidth 2,
    playerY := Int.tdiv screenHeight 2,
    score := 0,
    lives := INITIAL_LIVES,
    lastScoreUpdate := t0,
    immune := false,
    immuneStartTime := 0,
    enemies := spawnEnemies rand screenWidth screenHeight 0 NUM_ENEMIES,
    lastTick := t1,
    lastCollision := 0,
    quit := false,
    randCalls := 2 * NUM_ENEMIES }

/-! ## Predicates used by the statements -/

/-- The player square lies inside the screen. -/
def PlayerInBounds (screenWidth screenHeight : Int) (s : Game) : Prop :=
  0 ≤ s.playerX ∧ s.playerX ≤ screenWidth - PLAYER_SIZE ∧
  0 ≤ s.playerY ∧ s.playerY ≤ screenHeight - PLAYER_SIZE

/-- An enemy square lies inside the screen. -/
def EnemyInBounds (screenWidth screenHeight : Int) (e : Enemy) : Prop :=
  0 ≤ e.x ∧ e.x ≤ screenWidth - ENEMY_SIZE ∧ 0 ≤ e.y ∧ e.y ≤ screenHeight - ENEMY_SIZE

instance (sw sh : Int) (s : Game) : Decidable (PlayerInBounds sw sh s) := by
  unfold PlayerInBounds; infer_instance

instance (sw sh : Int) (e : Enemy) : Decidable (EnemyInBounds sw sh e) := by
  unfold EnemyInBounds; infer_instance

/-- The enemy vector after a sequence of `updateEnemies` calls; each call comes
with the player position it is given and the number of `rand` calls made before it. -/
def updateEnemiesMany (rand : Nat → Nat) (screenWidth screenHeight : Int)
    (enemies : List Enemy) (calls : List (Int × Int × Nat)) : List Enemy :=
  calls.foldl
    (fun es c => (updateEnemies rand (es, c.2.2) c.1 c.2.1 screenWidth screenHeight).1) enemies

/-- What an immune frame must leave alone: the player position, the enemies,
`lives`, `lastCollision` and `immuneStartTime`. -/
def Frozen (s t : Game) : Prop :=
  t.playerX = s.playerX ∧ t.playerY = s.playerY ∧ t.enemies = s.enemies ∧
  t.lives = s.lives ∧ t.lastCollision = s.lastCollision ∧
  t.immuneStartTime = s.immuneStartTime

instance (s t : Game) : Decidable (Frozen s t) := by
  unfold Frozen; infer_instance

/-- The `rand` oracle that returns the listed values in order, then `0`. -/
def randOf (vals : List Nat) : Nat → Nat := fun k => vals.getD k 0

/-- A `rand` sequence for 800x600 that spawns the five enemies away from the
player's start square and from each other. -/
def randCalm : Nat → Nat :=
  randOf [50, 60, 700, 500, 700, 100, 100, 500, 300, 20]

/-- No event, no key, at the given tick. -/
def idle (tick : Nat) : Input :=
  { tick := tick, quitEvent := false, keyW := false, keyS := false, keyA := false, keyD := false }

/-- A state in the middle of an immunity window on an 800x600 screen. -/
def immuneSample : Game :=
  { playerX := 120, playerY := 80, score := 4, lives := 2, lastScoreUpdate := 4000,
    immune := true, immuneStartTime := 4200,
    enemies := [⟨118, 82, true⟩, ⟨600, 400, true⟩, ⟨10, 500, true⟩, ⟨700, 30, true⟩,
      ⟨300, 300, true⟩],
    lastTick := 4984, lastCollision := 4200, quit := false, randCalls := 12 }

/-- A `rand` sequence for 800x600: one enemy spawns on the player's start square
`(400, 300)`, another at `(100, 100)`, and the first respawn draws `(100, 100)`. -/
def randTwoHits : Nat → Nat :=
  randOf [400, 300, 100, 100, 700, 500, 700, 100, 100, 500, 100, 100, 250, 250]

/-- A state on a 1024x768 screen before any collision: enemy 0 stands exactly on
the player, enemy 1 stands near `(30, 45)`. -/
def scenarioSample : Game :=
  { playerX := 212, playerY := 184, score := 5, lives := 3, lastScoreUpdate := 8500,
    immune := false, immuneStartTime := 0,
    enemies := [⟨212, 184, true⟩, ⟨40, 50, true⟩, ⟨900, 700, true⟩, ⟨900, 100, true⟩,
      ⟨500, 600, true⟩],
    lastTick := 8984, lastCollision := 0, quit := false, randCalls := 12 }

/-- A `rand` sequence whose calls 12 to 15 draw `(30, 45)` and then `(600, 300)`. -/
def randScenario : Nat → Nat :=
  randOf [212, 184, 40, 50, 900, 700, 900, 100, 500, 600, 7, 9, 30, 45, 600, 300]

/-- A `rand` sequence for 800x600: enemies spawn at `(400, 300)`, `(100, 100)`,
`(250, 250)`, `(255, 245)`, `(700, 500)`; the respawns draw `(100, 100)` and
`(250, 250)`. -/
def randFourHits : Nat → Nat :=
  randOf [400, 300, 100, 100, 250, 250, 255, 245, 700, 500, 100, 100, 250, 250]

/-- A state whose immunity window, started at tick 4200, is about to end. -/
def immuneEndSample : Game :=
  { playerX := 120, playerY := 80, score := 7, lives := 2, lastScoreUpdate := 7000,
    immune := true, immuneStartTime := 4200,
    enemies := [⟨118, 82, true⟩, ⟨600, 400, true⟩, ⟨10, 500, true⟩, ⟨700, 30, true⟩,
      ⟨300, 300, true⟩],
    lastTick := 7190, lastCollision := 4200, quit := false, randCalls := 12 }

/-- The frame at tick 7206 with the D key held. -/
def holdD : Input :=
  { tick := 7206, quitEvent := false, keyW := false, keyS := false, keyA := false, keyD := true }

/-- The state in which a frame that starts not immune reaches the collision test:
events polled, keys applied, player clamped (lines 253-279). -/
def movedPlayer (screenWidth screenHeight : Int) (s : Game) (i : Input) : Game :=
  clampPlayer (movePlayer (pollEvents s i) i) screenWidth screenHeight

/-- The frame after `holdD`, 16 ms later, with the D key still held. -/
def holdDNext : Input :=
  { tick := 7222, quitEvent := false, keyW := false, keyS := false, keyA := false, keyD := true }

/-! ## Shared lemmas -/

theorem tmod_rand_bounds (r : Nat) (m : Int) (hm : 0 < m) :
    0 ≤ Int.tmod (r : Int) m ∧ Int.tmod (r : Int) m < m :=
  ⟨Int.tmod_nonneg m (Int.ofNat_nonneg r), Int.tmod_lt_of_pos (r : Int) hm⟩

theorem foldl_invariant {α β : Type} (P : β → Prop) (f : β → α → β)
    (hf : ∀ b a, P b → P (f b a)) (l : List α) (b : β) (hb : P b) : P (l.foldl f b) := by
  induction l generalizing b with
  | nil => simpa using hb
  | cons a t ih => exact ih (f b a) (hf b a hb)

theorem clampPlayer_inBounds (sw sh : Int) (s : Game) (hw : PLAYER_SIZE < sw)
    (hh : PLAYER_SIZE < sh) : PlayerInBounds sw sh (clampPlayer s sw sh) := by
  unfold PLAYER_SIZE at hw hh
  simp only [PlayerInBounds, clampPlayer, PLAYER_SIZE]
  split_ifs <;> omega

theorem clampPlayer_of_inBounds (sw sh : Int) (s : Game) (h : PlayerInBounds sw sh s) :
    clampPlayer s sw sh = s := by
  obtain ⟨h1, h2, h3, h4⟩ := h
  simp only [clampPlayer]
  rw [if_neg (not_lt.mpr h1), if_neg (not_lt.mpr h2), if_neg (not_lt.mpr h3),
    if_neg (not_lt.mpr h4)]

theorem collideWith_inBounds (rand : Nat → Nat) (sw sh : Int) (t : Nat) (s : Game) (e : Enemy)
    (hw : PLAYER_SIZE < sw) (hh : PLAYER_SIZE < sh) (h : PlayerInBounds sw sh s) :
    PlayerInBounds sw sh (collideWith rand sw sh t s e) := by
  have bx := tmod_rand_bounds (rand s.randCalls) (sw - PLAYER_SIZE) (by omega)
  have by1 := tmod_rand_bounds (rand (s.randCalls + 1)) (sh - PLAYER_SIZE) (by omega)
  simp only [collideWith, respawnPlayer]
  split_ifs
  · exact h
  · simp only [PlayerInBounds]
    omega
  · exact h

theorem checkCollisions_inBounds (rand : Nat → Nat) (sw sh : Int) (t : Nat) (s : Game)
    (hw : PLAYER_SIZE < sw) (hh : PLAYER_SIZE < sh) (h : PlayerInBounds sw sh s) :
    PlayerInBounds sw sh (checkCollisions rand sw sh t s) := by
  unfold checkCollisions
  split_ifs
  · exact foldl_invariant (PlayerInBounds sw sh) _
      (fun b a hb => collideWith_inBounds rand sw sh t b a hw hh hb) _ _ h
  · exact h

theorem frame_inBounds (rand : Nat → Nat) (sw sh : Int) (s : Game) (i : Input)
    (hw : PLAYER_SIZE < sw) (hh : PLAYER_SIZE < sh) :
    PlayerInBounds sw sh (frame rand sw sh s i) := by
  have h := checkCollisions_inBounds rand sw sh i.tick
    (clampPlayer (handleKeys (pollEvents s i) i) sw sh) hw hh
    (clampPlayer_inBounds sw sh _ hw hh)
  simp only [frame, PlayerInBounds, handleImmunity, updateScore, enemiesPhase] at h ⊢
  split_ifs <;> exact h

theorem run_inBounds (rand : Nat → Nat) (sw sh : Int) (inputs : List Input) (s : Game)
    (hw : PLAYER_SIZE < sw) (hh : PLAYER_SIZE < sh) (h : PlayerInBounds sw sh s) :
    PlayerInBounds sw sh (run rand sw sh s inputs) := by
  induction inputs generalizing s with
  | nil => exact h
  | cons i rest ih =>
    unfold run
    split_ifs
    · exact h
    · exact ih _ (frame_inBounds rand sw sh s i hw hh)

/-! ## C1: the player stays on the screen -/

/-- C1 (player bounds invariant): on a screen larger than the player square, from
the initial player position `(screenWidth/2, screenHeight/2)`, with any enemy
positions, any `rand` values and any non-empty sequence of frames (any keys and
ticks), the player position after the last processed frame satisfies
`0 ≤ playerX ≤ screenWidth - PLAYER_SIZE` and `0 ≤ playerY ≤ screenHeight - PLAYER_SIZE`. -/
theorem player_bounds_invariant (rand : Nat → Nat) (screenWidth screenHeight : Int)
    (t0 t1 : Nat) (enemies : List Enemy) (inputs : List Input)
    (hw : PLAYER_SIZE < screenWidth) (hh : PLAYER_SIZE < screenHeight) (hne : inputs ≠ []) :
    PlayerInBounds screenWidth screenHeight
      (run rand screenWidth screenHeight
        { initGame rand screenWidth screenHeight t0 t1 with enemies := enemies } inputs) := by
  cases inputs with
  | nil => exact absurd rfl hne
  | cons i rest =>
    unfold run
    rw [if_neg (by simp [initGame])]
    exact run_inBounds rand screenWidth screenHeight rest _ hw hh
      (frame_inBounds rand screenWidth screenHeight _ i hw hh)

theorem player_bounds_invariant_witness :
    PLAYER_SIZE < 800 ∧ PLAYER_SIZE < 600 ∧
    PlayerInBounds 800 600
      (run (fun _ => 0) 800 600
        { initGame (fun _ => 0) 800 600 0 0 with enemies := [⟨400, 300, true⟩] }
        [⟨160, false, true, false, true, false⟩]) :=
  ⟨by decide, by decide,
    player_bounds_invariant (fun _ => 0) 800 600 0 0 [⟨400, 300, true⟩]
      [⟨160, false, true, false, true, false⟩] (by decide) (by decide) (by simp)⟩

/-! ## C2: the enemies stay on the screen -/

theorem spawnEnemies_inBounds (rand : Nat → Nat) (sw sh : Int) (hw : ENEMY_SIZE < sw)
    (hh : ENEMY_SIZE < sh) (n k : Nat) :
    ∀ e ∈ spawnEnemies rand sw sh k n, EnemyInBounds sw sh e := by
  induction n generalizing k with
  | zero => intro e he; simp [spawnEnemies] at he
  | succ n ih =>
    intro e he
    simp only [spawnEnemies, List.mem_cons] at he
    rcases he with rfl | he
    · have bx := tmod_rand_bounds (rand k) (sw - ENEMY_SIZE) (by omega)
      have by1 := tmod_rand_bounds (rand (k + 1)) (sh - ENEMY_SIZE) (by omega)
      simp only [EnemyInBounds]
      omega
    · exact ih (k + 2) e he

theorem clampEnemy_inBounds (e : Enemy) (sw sh : Int) (hw : ENEMY_SIZE < sw)
    (hh : ENEMY_SIZE < sh) : EnemyInBounds sw sh (clampEnemy e sw sh) := by
  unfold ENEMY_SIZE at hw hh
  simp only [EnemyInBounds, clampEnemy, ENEMY_SIZE]
  split_ifs <;> omega

theorem moveEnemy_inBounds (e : Enemy) (px py sw sh : Int) (hw : ENEMY_SIZE < sw)
    (hh : ENEMY_SIZE < sh) (h : EnemyInBounds sw sh e) :
    EnemyInBounds sw sh (moveEnemy e px py sw sh) := by
  unfold moveEnemy
  split_ifs
  · exact clampEnemy_inBounds _ sw sh hw hh
  · exact h

theorem resolvePair_inBounds (rand : Nat → Nat) (sw sh : Int) (hw : ENEMY_SIZE < sw)
    (hh : ENEMY_SIZE < sh) (i j : Nat) (st : List Enemy × Nat)
    (h : ∀ e ∈ st.1, EnemyInBounds sw sh e) :
    ∀ e ∈ (resolvePair rand sw sh i j st).1, EnemyInBounds sw sh e := by
  unfold resolvePair
  split
  · split_ifs
    · intro e he
      rcases List.mem_or_eq_of_mem_set he with he | rfl
      · exact h e he
      · have bx := tmod_rand_bounds (rand st.2) (sw - ENEMY_SIZE) (by omega)
        have by1 := tmod_rand_bounds (rand (st.2 + 1)) (sh - ENEMY_SIZE) (by omega)
        simp only [EnemyInBounds]
        omega
    · exact h
  · exact h

theorem resolveEnemyCollisions_inBounds (rand : Nat → Nat) (sw sh : Int)
    (hw : ENEMY_SIZE < sw) (hh : ENEMY_SIZE < sh) (st : List Enemy × Nat)
    (h : ∀ e ∈ st.1, EnemyInBounds sw sh e) :
    ∀ e ∈ (resolveEnemyCollisions rand sw sh st).1, EnemyInBounds sw sh e := by
  unfold resolveEnemyCollisions
  refine foldl_invariant (fun acc : List Enemy × Nat => ∀ e ∈ acc.1, EnemyInBounds sw sh e)
    _ ?_ _ st h
  intro acc i hacc
  unfold resolveRow
  exact foldl_invariant (fun acc : List Enemy × Nat => ∀ e ∈ acc.1, EnemyInBounds sw sh e)
    _ (fun b j hb => resolvePair_inBounds rand sw sh hw hh i j b hb) _ acc hacc

theorem updateEnemies_inBounds (rand : Nat → Nat) (sw sh : Int) (hw : ENEMY_SIZE < sw)
    (hh : ENEMY_SIZE < sh) (st : List Enemy × Nat) (px py : Int)
    (h : ∀ e ∈ st.1, EnemyInBounds sw sh e) :
    ∀ e ∈ (updateEnemies rand st px py sw sh).1, EnemyInBounds sw sh e := by
  unfold updateEnemies
  apply resolveEnemyCollisions_inBounds rand sw sh hw hh
  intro e he
  obtain ⟨a, ha, rfl⟩ := List.mem_map.mp he
  exact moveEnemy_inBounds a px py sw sh hw hh (h a ha)

/-- C2 (enemy bounds invariant): on a screen larger than the enemy square, every
enemy created at game start, and every enemy after any number of calls to
`updateEnemies` with any player positions and any `rand` values, satisfies
`0 ≤ x ≤ screenWidth - ENEMY_SIZE` and `0 ≤ y ≤ screenHeight - ENEMY_SIZE`
(the empty list of calls is the state at game start). -/
theorem enemy_bounds_invariant (rand : Nat → Nat) (screenWidth screenHeight : Int)
    (calls : List (Int × Int × Nat))
    (hw : ENEMY_SIZE < screenWidth) (hh : ENEMY_SIZE < screenHeight) :
    ∀ e ∈ updateEnemiesMany rand screenWidth screenHeight
        (spawnEnemies rand screenWidth screenHeight 0 NUM_ENEMIES) calls,
      EnemyInBounds screenWidth screenHeight e := by
  unfold updateEnemiesMany
  exact foldl_invariant (fun es : List Enemy => ∀ e ∈ es, EnemyInBounds screenWidth screenHeight e)
    _ (fun es c hes => updateEnemies_inBounds rand screenWidth screenHeight hw hh (es, c.2.2)
      c.1 c.2.1 hes) calls _
    (spawnEnemies_inBounds rand screenWidth screenHeight hw hh NUM_ENEMIES 0)

theorem enemy_bounds_invariant_witness :
    ENEMY_SIZE < 800 ∧ ENEMY_SIZE < 600 ∧
    ∀ e ∈ updateEnemiesMany (fun k => 790 * k) 800 600
        (spawnEnemies (fun k => 790 * k) 800 600 0 NUM_ENEMIES) [(0, 0, 10), (799, 599, 12)],
      EnemyInBounds 800 600 e :=
  ⟨by decide, by decide,
    enemy_bounds_invariant (fun k => 790 * k) 800 600 [(0, 0, 10), (799, 599, 12)]
      (by decide) (by decide)⟩

/-! ## C5: an immune frame changes nothing but the timers -/

theorem frame_of_immune (rand : Nat → Nat) (sw sh : Int) (s : Game) (i : Input)
    (him : s.immune = true) (hb : PlayerInBounds sw sh s) :
    Frozen s (frame rand sw sh s i) ∧ (frame rand sw sh s i).randCalls = s.randCalls ∧
    (frame rand sw sh s i).immune
      = !decide (sub32 i.tick s.immuneStartTime ≥ IMMUNITY_DURATION) := by
  have hk : handleKeys (pollEvents s i) i = pollEvents s i := by
    simp only [handleKeys, pollEvents]
    split_ifs <;> simp_all
  have hpb : PlayerInBounds sw sh (pollEvents s i) := by
    simp only [pollEvents, PlayerInBounds] at hb ⊢
    split_ifs <;> exact hb
  have hpi : (pollEvents s i).immune = true := by
    simp only [pollEvents]
    split_ifs <;> exact him
  have hc : checkCollisions rand sw sh i.tick (pollEvents s i) = pollEvents s i := by
    simp [checkCollisions, hpi]
  have he : enemiesPhase rand sw sh (pollEvents s i) = pollEvents s i := by
    simp [enemiesPhase, hpi]
  simp only [frame, hk, clampPlayer_of_inBounds sw sh _ hpb, hc, he]
  simp only [Frozen, handleImmunity, updateScore, pollEvents]
  split_ifs <;> simp_all

/-- C5 (immunity freezes the game): a frame that starts with `immune = true` and
the player in bounds leaves `playerX`, `playerY`, the whole enemy vector (every
enemy's `x`, `y` and `active`), `lives`, `lastCollision` and `immuneStartTime`
unchanged, for every key state, tick value, enemy list and `rand`. -/
theorem immunity_freezes_frame (rand : Nat → Nat) (screenWidth screenHeight : Int)
    (s : Game) (i : Input) (him : s.immune = true)
    (hb : PlayerInBounds screenWidth screenHeight s) :
    (frame rand screenWidth screenHeight s i).playerX = s.playerX ∧
    (frame rand screenWidth screenHeight s i).playerY = s.playerY ∧
    (frame rand screenWidth screenHeight s i).enemies = s.enemies ∧
    (frame rand screenWidth screenHeight s i).lives = s.lives ∧
    (frame rand screenWidth screenHeight s i).lastCollision = s.lastCollision ∧
    (frame rand screenWidth screenHeight s i).immuneStartTime = s.immuneStartTime :=
  (frame_of_immune rand screenWidth screenHeight s i him hb).1

theorem immunity_freezes_frame_witness :
    immuneSample.immune = true ∧ PlayerInBounds 800 600 immuneSample ∧
    (frame (randOf []) 800 600 immuneSample ⟨5000, false, true, false, false, true⟩).playerX
      = immuneSample.playerX :=
  ⟨by decide, by decide,
    (immunity_freezes_frame (randOf []) 800 600 immuneSample
      ⟨5000, false, true, false, false, true⟩ (by decide) (by decide)).1⟩

/-! ## The collision loop has no exit after a hit (C3, C4, C10) -/

/-- C3 (collision cooldown), evaluated on the code: in the first frame of a game
on 800x600, with the cooldown elapsed and no key pressed, enemy 0 stands on the
player and the respawn lands on enemy 1; the one frame decrements `lives` twice,
from 3 to 1, both at tick 1000. -/
theorem cooldown_two_hits_one_frame :
    (initGame randTwoHits 800 600 900 900).lives = 3 ∧
    (initGame randTwoHits 800 600 900 900).enemies
      = [⟨400, 300, true⟩, ⟨100, 100, true⟩, ⟨700, 500, true⟩, ⟨700, 100, true⟩,
          ⟨100, 500, true⟩] ∧
    (frame randTwoHits 800 600 (initGame randTwoHits 800 600 900 900) (idle 1000)).lives = 1 ∧
    (frame randTwoHits 800 600 (initGame randTwoHits 800 600 900 900) (idle 1000)).lastCollision
      = 1000 := by
  decide

/-- C4 (collision scenario), evaluated on the code: the frame starts not immune,
with the cooldown elapsed, `lives = 3`, no key pressed, the player in bounds and
active enemy 0 exactly on the player; the respawn lands on enemy 1, and after the
frame `lives` is 1, two less than before, not one less. -/
theorem scenario_loses_two_lives :
    scenarioSample.immune = false ∧ sub32 (idle 9000).tick scenarioSample.lastCollision ≥ 100 ∧
    scenarioSample.lives = 3 ∧ PlayerInBounds 1024 768 scenarioSample ∧
    scenarioSample.enemies[0]? = some ⟨scenarioSample.playerX, scenarioSample.playerY, true⟩ ∧
    (frame randScenario 1024 768 scenarioSample (idle 9000)).lives = 1 ∧
    (frame randScenario 1024 768 scenarioSample (idle 9000)).immune = true := by
  decide

/-- C10 (lives range), evaluated on the code: in the first frame of a game on
800x600 the player is hit by enemy 0, respawns onto enemy 1, respawns onto
enemy 2, which takes the last life and sets `quit`, and is hit once more by the
overlapping enemy 3: the run ends by collision with `lives = -1`. -/
theorem lives_go_negative :
    (initGame randFourHits 800 600 900 900).lives = INITIAL_LIVES ∧
    (run randFourHits 800 600 (initGame randFourHits 800 600 900 900) [idle 1000]).lives = -1 ∧
    (run randFourHits 800 600 (initGame randFourHits 800 600 900 900) [idle 1000]).quit = true := by
  decide

/-! ## C9: the pursuit step -/

/-- C9 (pursuit step), evaluated on the code: an active enemy at `x = 99` chasing a
player at `x = 100` is below the player, yet its `x` after the pursuit statements
is still 99, not `99 + ENEMY_SPEED`; the mirrored enemy at `x = 101` does step by
`ENEMY_SPEED`, to 99. -/
theorem pursuit_step_lost_below :
    (pursue ⟨99, 300, true⟩ 100 300).x = 99 ∧ (99 : Int) + ENEMY_SPEED = 101 ∧
    (pursue ⟨101, 300, true⟩ 100 300).x = 101 - ENEMY_SPEED := by
  decide

/-! ## C7: the score timer -/

theorem collideWith_score (rand : Nat → Nat) (sw sh : Int) (t : Nat) (s : Game) (e : Enemy) :
    (collideWith rand sw sh t s e).score = s.score ∧
    (collideWith rand sw sh t s e).lastScoreUpdate = s.lastScoreUpdate := by
  simp only [collideWith, respawnPlayer]
  split_ifs <;> simp

theorem checkCollisions_score (rand : Nat → Nat) (sw sh : Int) (t : Nat) (s : Game) :
    (checkCollisions rand sw sh t s).score = s.score ∧
    (checkCollisions rand sw sh t s).lastScoreUpdate = s.lastScoreUpdate := by
  unfold checkCollisions
  split_ifs
  · refine foldl_invariant
      (fun b : Game => b.score = s.score ∧ b.lastScoreUpdate = s.lastScoreUpdate) _ ?_ _ s
      ⟨rfl, rfl⟩
    intro b a hb
    have h := collideWith_score rand sw sh t b a
    exact ⟨h.1.trans hb.1, h.2.trans hb.2⟩
  · exact ⟨rfl, rfl⟩

theorem frame_score (rand : Nat → Nat) (sw sh : Int) (s : Game) (i : Input) :
    (frame rand sw sh s i).score
      = (if SCORE_INCREMENT_INTERVAL ≤ sub32 i.tick s.lastScoreUpdate then s.score + 1
          else s.score) ∧
    (frame rand sw sh s i).lastScoreUpdate
      = (if SCORE_INCREMENT_INTERVAL ≤ sub32 i.tick s.lastScoreUpdate then i.tick
          else s.lastScoreUpdate) := by
  have h := checkCollisions_score rand sw sh i.tick
    (clampPlayer (handleKeys (pollEvents s i) i) sw sh)
  have h0 : (clampPlayer (handleKeys (pollEvents s i) i) sw sh).score = s.score ∧
      (clampPlayer (handleKeys (pollEvents s i) i) sw sh).lastScoreUpdate
        = s.lastScoreUpdate := by
    simp only [clampPlayer, handleKeys, movePlayer, pollEvents]
    split_ifs <;> simp
  rw [h0.1, h0.2] at h
  simp only [frame, handleImmunity, updateScore, enemiesPhase]
  split_ifs <;> simp_all

theorem sub32_of_le (a b : Nat) (hab : b ≤ a) (ha : a < 4294967296) : sub32 a b = a - b := by
  unfold sub32
  omega

theorem run_score_inv (rand : Nat → Nat) (sw sh : Int) (t0 : Nat) (inputs : List Input) :
    ∀ s : Game, List.Pairwise (· ≤ ·) (inputs.map Input.tick) →
      (∀ j ∈ inputs, s.lastScoreUpdate ≤ j.tick ∧ j.tick < 4294967296) →
      t0 ≤ s.lastScoreUpdate → 0 ≤ s.score →
      s.score * 1000 ≤ (s.lastScoreUpdate : Int) - t0 →
      t0 ≤ (run rand sw sh s inputs).lastScoreUpdate ∧
      0 ≤ (run rand sw sh s inputs).score ∧
      (run rand sw sh s inputs).score * 1000
        ≤ ((run rand sw sh s inputs).lastScoreUpdate : Int) - t0 ∧
      ((run rand sw sh s inputs).lastScoreUpdate = s.lastScoreUpdate ∨
        ∃ j ∈ inputs, (run rand sw sh s inputs).lastScoreUpdate = j.tick) := by
  induction inputs with
  | nil => intro s _ _ h1 h2 h3; exact ⟨h1, h2, h3, Or.inl rfl⟩
  | cons j rest ih =>
    intro s hp hb h1 h2 h3
    unfold run
    split_ifs
    · exact ⟨h1, h2, h3, Or.inl rfl⟩
    · rw [List.map_cons, List.pairwise_cons] at hp
      obtain ⟨hj, hrest⟩ := hp
      obtain ⟨hs, hl⟩ := frame_score rand sw sh s j
      obtain ⟨hjl, hjb⟩ := hb j (List.mem_cons_self j rest)
      have hsub := sub32_of_le j.tick s.lastScoreUpdate hjl hjb
      have key : s.lastScoreUpdate ≤ (frame rand sw sh s j).lastScoreUpdate ∧
          (frame rand sw sh s j).lastScoreUpdate ≤ j.tick ∧
          0 ≤ (frame rand sw sh s j).score ∧
          (frame rand sw sh s j).score * 1000
            ≤ ((frame rand sw sh s j).lastScoreUpdate : Int) - t0 ∧
          ((frame rand sw sh s j).lastScoreUpdate = s.lastScoreUpdate ∨
            (frame rand sw sh s j).lastScoreUpdate = j.tick) := by
        rw [hs, hl, hsub]
        unfold SCORE_INCREMENT_INTERVAL
        split_ifs <;> omega
      obtain ⟨k1, k2, k3, k4, k5⟩ := key
      have hb2 : ∀ x ∈ rest, (frame rand sw sh s j).lastScoreUpdate ≤ x.tick ∧
          x.tick < 4294967296 := by
        intro x hx
        have := hj x.tick (List.mem_map_of_mem Input.tick hx)
        exact ⟨by omega, (hb x (List.mem_cons_of_mem j hx)).2⟩
      obtain ⟨r1, r2, r3, r4⟩ := ih (frame rand sw sh s j) hrest hb2 (by omega) k3 k4
      refine ⟨r1, r2, r3, ?_⟩
      rcases r4 with r4 | ⟨x, hx, r4⟩
      · rcases k5 with k5 | k5
        · exact Or.inl (r4.trans k5)
        · exact Or.inr ⟨j, List.mem_cons_self j rest, r4.trans k5⟩
      · exact Or.inr ⟨x, List.mem_cons_of_mem j hx, r4⟩

/-- C7 as stated fails: with `lastScoreUpdate` initialised at tick 500 and frames
at ticks 1492, 1508, 2484 and 2500, the score after the frame at tick 2500 is 1,
while `floor((2500 - 500) / 1000)` is 2. -/
theorem score_not_elapsed_seconds :
    (run randCalm 800 600 (initGame randCalm 800 600 500 500)
      [idle 1492, idle 1508, idle 2484, idle 2500]).score = 1 ∧
    (run randCalm 800 600 (initGame randCalm 800 600 500 500)
      [idle 1492, idle 1508, idle 2484, idle 2500]).score ≠ ((2500 - 500) / 1000 : Int) := by
  decide

/-- C7, amended (score rate): in every frame the score increases by exactly 1 when
at least 1000 ms have elapsed since `lastScoreUpdate`, which is then set to the
frame's tick, and is unchanged otherwise, whatever the keys, collisions, lives and
immunity; so in a run with non-decreasing ticks below `2^32`, starting with
`lastScoreUpdate = t0`, the score after the frame at tick `t` is between 0 and
`floor((t - t0) / 1000)`. -/
theorem score_rate_from_last_update (rand : Nat → Nat) (screenWidth screenHeight : Int)
    (t0 t1 : Nat) (enemies : List Enemy) (inputs : List Input) (i : Input)
    (hsorted : List.Pairwise (· ≤ ·) (t0 :: (inputs ++ [i]).map Input.tick))
    (hlt : i.tick < 4294967296) :
    (∀ (s : Game) (j : Input),
      (frame rand screenWidth screenHeight s j).score
        = (if SCORE_INCREMENT_INTERVAL ≤ sub32 j.tick s.lastScoreUpdate then s.score + 1
            else s.score) ∧
      (frame rand screenWidth screenHeight s j).lastScoreUpdate
        = (if SCORE_INCREMENT_INTERVAL ≤ sub32 j.tick s.lastScoreUpdate then j.tick
            else s.lastScoreUpdate)) ∧
    0 ≤ (run rand screenWidth screenHeight
          { initGame rand screenWidth screenHeight t0 t1 with enemies := enemies }
          (inputs ++ [i])).score ∧
    (run rand screenWidth screenHeight
          { initGame rand screenWidth screenHeight t0 t1 with enemies := enemies }
          (inputs ++ [i])).score ≤ (((i.tick - t0) / 1000 : Nat) : Int) := by
  refine ⟨fun s j => frame_score rand screenWidth screenHeight s j, ?_⟩
  rw [List.pairwise_cons] at hsorted
  obtain ⟨h0, hp⟩ := hsorted
  have hlast : ∀ x ∈ inputs ++ [i], x.tick ≤ i.tick := by
    intro x hx
    rw [List.map_append, List.pairwise_append] at hp
    rcases List.mem_append.mp hx with hx | hx
    · exact hp.2.2 x.tick (List.mem_map_of_mem Input.tick hx) i.tick (by simp)
    · simp at hx
      rw [hx]
  have hb : ∀ x ∈ inputs ++ [i], t0 ≤ x.tick ∧ x.tick < 4294967296 := by
    intro x hx
    exact ⟨h0 x.tick (List.mem_map_of_mem Input.tick hx), lt_of_le_of_lt (hlast x hx) hlt⟩
  obtain ⟨r1, r2, r3, r4⟩ := run_score_inv rand screenWidth screenHeight t0 (inputs ++ [i])
    { initGame rand screenWidth screenHeight t0 t1 with enemies := enemies } hp hb
    (le_refl t0) (by simp [initGame]) (by simp [initGame])
  have hle : (run rand screenWidth screenHeight
      { initGame rand screenWidth screenHeight t0 t1 with enemies := enemies }
      (inputs ++ [i])).lastScoreUpdate ≤ i.tick := by
    rcases r4 with r4 | ⟨x, hx, r4⟩
    · rw [r4]
      exact (hb i (by simp)).1
    · rw [r4]
      exact hlast x hx
  refine ⟨r2, ?_⟩
  omega

theorem score_rate_from_last_update_witness :
    List.Pairwise (· ≤ ·) (500 :: ([idle 1492, idle 1508, idle 2484] ++ [idle 2500]).map Input.tick) ∧
    (run randCalm 800 600
        { initGame randCalm 800 600 500 500 with enemies := [⟨50, 60, true⟩] }
        ([idle 1492, idle 1508, idle 2484] ++ [idle 2500])).score
      ≤ (((2500 - 500) / 1000 : Nat) : Int) :=
  ⟨by decide,
    (score_rate_from_last_update randCalm 800 600 500 500 [⟨50, 60, true⟩]
      [idle 1492, idle 1508, idle 2484] (idle 2500) (by decide) (by decide)).2.2⟩

/-! ## C8: relocation after an enemy-enemy overlap -/

theorem moveEnemy_same (e0 e1 : Enemy) (px py sw sh : Int) (ha0 : e0.active = true)
    (ha1 : e1.active = true) (hx : e1.x = e0.x) (hy : e1.y = e0.y) :
    moveEnemy e1 px py sw sh = moveEnemy e0 px py sw sh := by
  cases e0; cases e1; simp_all

theorem moveEnemy_active (e : Enemy) (px py sw sh : Int) :
    (moveEnemy e px py sw sh).active = e.active := by
  unfold moveEnemy
  split_ifs <;> simp [clampEnemy, pursue]

/-- C8 as stated fails: on 800x600 with the player at `(400, 300)`, two active
enemies at `(100, 100)` both step to `(102, 102)`; with `rand` returning 882 and
682 the second one is relocated to `(882 % 780, 682 % 580) = (102, 102)`, the
position of the first. -/
theorem relocation_can_land_on_first :
    (updateEnemies (randOf [882, 682]) ([⟨100, 100, true⟩, ⟨100, 100, true⟩], 0)
      400 300 800 600).1 = [⟨102, 102, true⟩, ⟨102, 102, true⟩] := by
  decide

/-- C8, amended (enemy-enemy scenario): for two active enemies with identical
coordinates on a screen larger than the enemy square, any player position and any
two `rand` values `r1`, `r2`, one call to `updateEnemies` leaves the first enemy
at its pursuit-moved, clamped position and relocates the second to
`(r1 % (screenWidth - ENEMY_SIZE), r2 % (screenHeight - ENEMY_SIZE))`, which is in
bounds; the two positions differ unless the drawn position is that of the first. -/
theorem relocation_of_second_enemy (rand : Nat → Nat) (screenWidth screenHeight : Int)
    (playerX playerY : Int) (k : Nat) (e0 e1 : Enemy)
    (ha0 : e0.active = true) (ha1 : e1.active = true)
    (hx : e1.x = e0.x) (hy : e1.y = e0.y)
    (hw : ENEMY_SIZE < screenWidth) (hh : ENEMY_SIZE < screenHeight) :
    updateEnemies rand ([e0, e1], k) playerX playerY screenWidth screenHeight
      = ([moveEnemy e0 playerX playerY screenWidth screenHeight,
          ⟨Int.tmod (rand k) (screenWidth - ENEMY_SIZE),
           Int.tmod (rand (k + 1)) (screenHeight - ENEMY_SIZE), true⟩], k + 2) ∧
    EnemyInBounds screenWidth screenHeight
      ⟨Int.tmod (rand k) (screenWidth - ENEMY_SIZE),
       Int.tmod (rand (k + 1)) (screenHeight - ENEMY_SIZE), true⟩ := by
  have hm := moveEnemy_same e0 e1 playerX playerY screenWidth screenHeight ha0 ha1 hx hy
  have hact := moveEnemy_active e0 playerX playerY screenWidth screenHeight
  rw [ha0] at hact
  constructor
  · simp [updateEnemies, resolveEnemyCollisions, resolveRow, List.range, List.range.loop,
      List.range', resolvePair, hm, hact, ENEMY_SIZE]
  · have bx := tmod_rand_bounds (rand k) (screenWidth - ENEMY_SIZE) (by omega)
    have by1 := tmod_rand_bounds (rand (k + 1)) (screenHeight - ENEMY_SIZE) (by omega)
    simp only [EnemyInBounds]
    omega

theorem relocation_of_second_enemy_witness :
    (updateEnemies (randOf [5, 7]) ([⟨100, 100, true⟩, ⟨100, 100, true⟩], 0) 400 300 800 600).1
      = [⟨102, 102, true⟩, ⟨5, 7, true⟩] :=
  congrArg Prod.fst
    (relocation_of_second_enemy (randOf [5, 7]) 800 600 400 300 0 ⟨100, 100, true⟩
      ⟨100, 100, true⟩ rfl rfl rfl rfl (by decide) (by decide)).1

/-! ## C6: the immunity window -/

theorem collideWith_lives_le (rand : Nat → Nat) (sw sh : Int) (t : Nat) (s : Game) (e : Enemy) :
    (collideWith rand sw sh t s e).lives ≤ s.lives := by
  simp only [collideWith, respawnPlayer]
  split_ifs <;> simp

theorem collideWith_of_hit (rand : Nat → Nat) (sw sh : Int) (t : Nat) (s : Game) (e : Enemy)
    (h : hits s e = true) : (collideWith rand sw sh t s e).lives = s.lives - 1 := by
  simp only [collideWith, respawnPlayer, h, if_true]
  split_ifs <;> rfl

theorem collideWith_of_miss (rand : Nat → Nat) (sw sh : Int) (t : Nat) (s : Game) (e : Enemy)
    (h : hits s e = false) : collideWith rand sw sh t s e = s := by
  simp [collideWith, h]

theorem foldl_collide_lives_le (rand : Nat → Nat) (sw sh : Int) (t : Nat) (es : List Enemy) :
    ∀ s : Game, (es.foldl (collideWith rand sw sh t) s).lives ≤ s.lives := by
  induction es with
  | nil => intro s; exact le_refl _
  | cons e rest ih =>
    intro s
    exact le_trans (ih _) (collideWith_lives_le rand sw sh t s e)

theorem foldl_collide_none (rand : Nat → Nat) (sw sh : Int) (t : Nat) (es : List Enemy)
    (s : Game) (h : ∀ e ∈ es, hits s e = false) :
    es.foldl (collideWith rand sw sh t) s = s := by
  induction es with
  | nil => rfl
  | cons e rest ih =>
    rw [List.foldl_cons, collideWith_of_miss rand sw sh t s e (h e (List.mem_cons_self e rest))]
    exact ih (fun x hx => h x (List.mem_cons_of_mem e hx))

theorem foldl_collide_some (rand : Nat → Nat) (sw sh : Int) (t : Nat) (es : List Enemy)
    (s : Game) (h : ∃ e ∈ es, hits s e = true) :
    (es.foldl (collideWith rand sw sh t) s).lives < s.lives := by
  induction es with
  | nil => obtain ⟨e, he, _⟩ := h; simp at he
  | cons e rest ih =>
    rw [List.foldl_cons]
    cases hh : hits s e with
    | true =>
      have h1 := foldl_collide_lives_le rand sw sh t rest (collideWith rand sw sh t s e)
      have h2 := collideWith_of_hit rand sw sh t s e hh
      omega
    | false =>
      rw [collideWith_of_miss rand sw sh t s e hh]
      apply ih
      obtain ⟨x, hx, hxh⟩ := h
      rcases List.mem_cons.mp hx with rfl | hx
      · rw [hh] at hxh; exact absurd hxh (by simp)
      · exact ⟨x, hx, hxh⟩

theorem frame_lives (rand : Nat → Nat) (sw sh : Int) (s : Game) (i : Input) :
    (frame rand sw sh s i).lives
      = (checkCollisions rand sw sh i.tick
          (clampPlayer (handleKeys (pollEvents s i) i) sw sh)).lives := by
  simp only [frame, handleImmunity, updateScore, enemiesPhase]
  split_ifs <;> rfl

theorem movedPlayer_fields (sw sh : Int) (s : Game) (i : Input) :
    (movedPlayer sw sh s i).enemies = s.enemies ∧
    (movedPlayer sw sh s i).randCalls = s.randCalls ∧
    (movedPlayer sw sh s i).immune = s.immune ∧
    (movedPlayer sw sh s i).lastCollision = s.lastCollision ∧
    (movedPlayer sw sh s i).lives = s.lives := by
  simp only [movedPlayer, clampPlayer, movePlayer, pollEvents]
  split_ifs <;> simp

theorem handleKeys_of_not_immune (s : Game) (i : Input) (hni : s.immune = false) :
    handleKeys (pollEvents s i) i = movePlayer (pollEvents s i) i := by
  have : (pollEvents s i).immune = false := by
    simp only [pollEvents]
    split_ifs <;> exact hni
  simp [handleKeys, this]

theorem frame_of_not_immune (rand : Nat → Nat) (sw sh : Int) (s : Game) (i : Input)
    (hni : s.immune = false) :
    ((sub32 i.tick s.lastCollision < 100 ∨ ∀ e ∈ s.enemies, hits (movedPlayer sw sh s i) e = false) →
      (frame rand sw sh s i).playerX = (movedPlayer sw sh s i).playerX ∧
      (frame rand sw sh s i).playerY = (movedPlayer sw sh s i).playerY ∧
      (frame rand sw sh s i).enemies
        = (updateEnemies rand (s.enemies, s.randCalls) (movedPlayer sw sh s i).playerX
            (movedPlayer sw sh s i).playerY sw sh).1 ∧
      (frame rand sw sh s i).lives = s.lives) ∧
    (100 ≤ sub32 i.tick s.lastCollision →
      (∃ e ∈ s.enemies, hits (movedPlayer sw sh s i) e = true) →
      (frame rand sw sh s i).lives < s.lives) := by
  obtain ⟨f1, f2, f3, f4, f5⟩ := movedPlayer_fields sw sh s i
  rw [hni] at f3
  constructor
  · intro h
    have hc : checkCollisions rand sw sh i.tick (movedPlayer sw sh s i)
        = movedPlayer sw sh s i := by
      unfold checkCollisions
      split_ifs with hg
      · rcases h with h | h
        · rw [f4] at hg
          simp only [Bool.and_eq_true, decide_eq_true_eq] at hg
          omega
        · rw [f1]
          exact foldl_collide_none rand sw sh i.tick _ _ h
      · rfl
    have hf : frame rand sw sh s i
        = { handleImmunity i.tick (updateScore i.tick
              (enemiesPhase rand sw sh (movedPlayer sw sh s i))) with lastTick := i.tick } := by
      simp only [frame, handleKeys_of_not_immune s i hni]
      rw [show clampPlayer (movePlayer (pollEvents s i) i) sw sh = movedPlayer sw sh s i from rfl,
        hc]
    rw [hf, ← f1, ← f2, ← f5]
    simp only [handleImmunity, updateScore, enemiesPhase, f3, Bool.not_false, if_true]
    split_ifs <;> simp
  · intro hg hex
    rw [frame_lives, handleKeys_of_not_immune s i hni,
      show clampPlayer (movePlayer (pollEvents s i) i) sw sh = movedPlayer sw sh s i from rfl]
    unfold checkCollisions
    rw [f3, f4, if_pos (by simpa using hg), f1, ← f5]
    exact foldl_collide_some rand sw sh i.tick _ _ hex

theorem frozen_trans (a b c : Game) (h1 : Frozen a b) (h2 : Frozen b c) : Frozen a c := by
  unfold Frozen at h1 h2 ⊢
  rw [h2.1, h2.2.1, h2.2.2.1, h2.2.2.2.1, h2.2.2.2.2.1, h2.2.2.2.2.2]
  exact h1

theorem run_of_immune (rand : Nat → Nat) (sw sh : Int) (inputs : List Input) :
    ∀ s : Game, s.immune = true → PlayerInBounds sw sh s →
      (∀ j ∈ inputs, sub32 j.tick s.immuneStartTime < IMMUNITY_DURATION) →
      Frozen s (run rand sw sh s inputs) ∧ (run rand sw sh s inputs).immune = true := by
  induction inputs with
  | nil => intro s him _ _; exact ⟨⟨rfl, rfl, rfl, rfl, rfl, rfl⟩, him⟩
  | cons j rest ih =>
    intro s him hb hall
    unfold run
    split_ifs
    · exact ⟨⟨rfl, rfl, rfl, rfl, rfl, rfl⟩, him⟩
    · obtain ⟨hfz, _, him2⟩ := frame_of_immune rand sw sh s j him hb
      have hj := hall j (List.mem_cons_self j rest)
      have him3 : (frame rand sw sh s j).immune = true := by
        rw [him2]
        simp only [Bool.not_eq_true', decide_eq_false_iff_not]
        omega
      have hb2 : PlayerInBounds sw sh (frame rand sw sh s j) := by
        unfold PlayerInBounds at hb ⊢
        rw [hfz.1, hfz.2.1]
        exact hb
      have hall2 : ∀ x ∈ rest,
          sub32 x.tick (frame rand sw sh s j).immuneStartTime < IMMUNITY_DURATION := by
        intro x hx
        rw [hfz.2.2.2.2.2]
        exact hall x (List.mem_cons_of_mem j hx)
      obtain ⟨r1, r2⟩ := ih _ him3 hb2 hall2
      exact ⟨frozen_trans _ _ _ hfz r1, r2⟩

/-- C6 as stated fails: immunity started at tick 4200 and the frame at tick 7206
(3006 ms later) has the D key held and room to move right, yet it is processed as
immune: the player stays at `x = 120` and the enemies stay where they are. The
same frame processed as not immune would bring the player to `x = 125`. -/
theorem immunity_end_frame_still_immune :
    immuneEndSample.immune = true ∧
    IMMUNITY_DURATION ≤ sub32 holdD.tick immuneEndSample.immuneStartTime ∧
    holdD.keyD = true ∧
    (frame (randOf []) 800 600 immuneEndSample holdD).playerX = 120 ∧
    (frame (randOf []) 800 600 immuneEndSample holdD).enemies = immuneEndSample.enemies ∧
    (movedPlayer 800 600 { immuneEndSample with immune := false } holdD).playerX = 125 := by
  decide

/-- C6, amended (immunity window): let immunity have started at `immuneStartTime`
and the player be in bounds. Every frame whose tick `t` has
`t - immuneStartTime < 3000` is processed as immune (player, enemies, lives and
collision timers unchanged) and leaves `immune` set. The first frame with
`t - immuneStartTime >= 3000` is still processed as immune and clears `immune` at
its end. The frame after that one is processed as not immune: the pressed keys
move the player (then clamped); when the cooldown has not elapsed or no active
enemy overlaps the moved player, the player keeps that position and the enemies
are updated by `updateEnemies` towards it; when the cooldown has elapsed and an
active enemy overlaps the moved player, `lives` decreases. -/
theorem immunity_window (rand : Nat → Nat) (screenWidth screenHeight : Int)
    (s sA sB : Game) (inputs : List Input) (i i2 : Input)
    (him : s.immune = true) (hb : PlayerInBounds screenWidth screenHeight s)
    (hin : ∀ j ∈ inputs, sub32 j.tick s.immuneStartTime < IMMUNITY_DURATION)
    (hout : IMMUNITY_DURATION ≤ sub32 i.tick s.immuneStartTime)
    (hA : sA = run rand screenWidth screenHeight s inputs)
    (hB : sB = frame rand screenWidth screenHeight sA i) :
    (Frozen s sA ∧ sA.immune = true) ∧
    (Frozen sA sB ∧ sB.immune = false) ∧
    ((sub32 i2.tick sB.lastCollision < 100 ∨
        ∀ e ∈ sB.enemies, hits (movedPlayer screenWidth screenHeight sB i2) e = false) →
      (frame rand screenWidth screenHeight sB i2).playerX
        = (movedPlayer screenWidth screenHeight sB i2).playerX ∧
      (frame rand screenWidth screenHeight sB i2).playerY
        = (movedPlayer screenWidth screenHeight sB i2).playerY ∧
      (frame rand screenWidth screenHeight sB i2).enemies
        = (updateEnemies rand (sB.enemies, sB.randCalls)
            (movedPlayer screenWidth screenHeight sB i2).playerX
            (movedPlayer screenWidth screenHeight sB i2).playerY screenWidth screenHeight).1 ∧
      (frame rand screenWidth screenHeight sB i2).lives = sB.lives) ∧
    (100 ≤ sub32 i2.tick sB.lastCollision →
      (∃ e ∈ sB.enemies, hits (movedPlayer screenWidth screenHeight sB i2) e = true) →
      (frame rand screenWidth screenHeight sB i2).lives < sB.lives) := by
  subst hA hB
  obtain ⟨hfA, himA⟩ := run_of_immune rand screenWidth screenHeight inputs s him hb hin
  have hbA : PlayerInBounds screenWidth screenHeight
      (run rand screenWidth screenHeight s inputs) := by
    unfold PlayerInBounds at hb ⊢
    rw [hfA.1, hfA.2.1]
    exact hb
  obtain ⟨hfB, _, himB⟩ := frame_of_immune rand screenWidth screenHeight
    (run rand screenWidth screenHeight s inputs) i himA hbA
  have himB2 : (frame rand screenWidth screenHeight
      (run rand screenWidth screenHeight s inputs) i).immune = false := by
    rw [himB, hfA.2.2.2.2.2]
    simpa using hout
  obtain ⟨hn1, hn2⟩ := frame_of_not_immune rand screenWidth screenHeight
    (frame rand screenWidth screenHeight (run rand screenWidth screenHeight s inputs) i) i2 himB2
  exact ⟨⟨hfA, himA⟩, ⟨hfB, himB2⟩, hn1, hn2⟩

theorem immunity_window_witness :
    immuneEndSample.immune = true ∧ PlayerInBounds 800 600 immuneEndSample ∧
    (∀ j ∈ [idle 7195], sub32 j.tick immuneEndSample.immuneStartTime < IMMUNITY_DURATION) ∧
    IMMUNITY_DURATION ≤ sub32 holdD.tick immuneEndSample.immuneStartTime ∧
    (frame (randOf []) 800 600 (run (randOf []) 800 600 immuneEndSample [idle 7195])
      holdD).immune = false :=
  ⟨by decide, by decide, by decide, by decide,
    (immunity_window (randOf []) 800 600 immuneEndSample
      (run (randOf []) 800 600 immuneEndSample [idle 7195])
      (frame (randOf []) 800 600 (run (randOf []) 800 600 immuneEndSample [idle 7195]) holdD)
      [idle 7195] holdD holdDNext (by decide) (by decide) (by decide) (by decide)
      rfl rfl).2.1.2⟩

/-! ## Where the collision loop and the pursuit step do behave as specified -/

theorem sub32_self (t : Nat) : sub32 t t = 0 := by
  unfold sub32
  omega

/-- With a single enemy in the list the collision scenario goes through: one life
lost, player respawned at the drawn position, immunity and cooldown started. -/
theorem frame_single_hit (rand : Nat → Nat) (sw sh : Int) (s : Game) (i : Input) (e : Enemy)
    (hni : s.immune = false) (hcd : 100 ≤ sub32 i.tick s.lastCollision) (hl : 2 ≤ s.lives)
    (hes : s.enemies = [e]) (hhit : hits (movedPlayer sw sh s i) e = true) :
    (frame rand sw sh s i).lives = s.lives - 1 ∧
    (frame rand sw sh s i).playerX = Int.tmod (rand s.randCalls) (sw - PLAYER_SIZE) ∧
    (frame rand sw sh s i).playerY = Int.tmod (rand (s.randCalls + 1)) (sh - PLAYER_SIZE) ∧
    (frame rand sw sh s i).immune = true ∧
    (frame rand sw sh s i).immuneStartTime = i.tick ∧
    (frame rand sw sh s i).lastCollision = i.tick := by
  obtain ⟨f1, f2, f3, f4, f5⟩ := movedPlayer_fields sw sh s i
  rw [hni] at f3
  have hc : checkCollisions rand sw sh i.tick (movedPlayer sw sh s i)
      = collideWith rand sw sh i.tick (movedPlayer sw sh s i) e := by
    unfold checkCollisions
    rw [f3, f4, if_pos (by simpa using hcd), f1, hes]
    rfl
  have hlives : ¬ (movedPlayer sw sh s i).lives - 1 ≤ 0 := by omega
  have hf : frame rand sw sh s i
      = { handleImmunity i.tick (updateScore i.tick
            (enemiesPhase rand sw sh
              (collideWith rand sw sh i.tick (movedPlayer sw sh s i) e))) with
          lastTick := i.tick } := by
    simp only [frame, handleKeys_of_not_immune s i hni]
    rw [show clampPlayer (movePlayer (pollEvents s i) i) sw sh = movedPlayer sw sh s i from rfl,
      hc]
  rw [hf, ← f2, ← f5]
  simp only [collideWith, hhit, if_true, if_neg hlives, respawnPlayer, enemiesPhase,
    updateScore, handleImmunity, Bool.not_true, Bool.false_eq_true, if_false, sub32_self]
  split_ifs <;> simp_all [IMMUNITY_DURATION, sub32_self]

/-- While the player is immune or the 100 ms cooldown is running, a frame takes no
life: the gate of line 281 does separate collisions of different frames. -/
theorem frame_lives_of_gate_closed (rand : Nat → Nat) (sw sh : Int) (s : Game) (i : Input)
    (h : s.immune = true ∨ sub32 i.tick s.lastCollision < 100) :
    (frame rand sw sh s i).lives = s.lives := by
  rw [frame_lives]
  have hp : (clampPlayer (handleKeys (pollEvents s i) i) sw sh).immune = s.immune ∧
      (clampPlayer (handleKeys (pollEvents s i) i) sw sh).lastCollision = s.lastCollision ∧
      (clampPlayer (handleKeys (pollEvents s i) i) sw sh).lives = s.lives := by
    simp only [clampPlayer, handleKeys, movePlayer, pollEvents]
    split_ifs <;> simp
  unfold checkCollisions
  rw [hp.1, hp.2.1, if_neg, hp.2.2]
  rcases h with h | h
  · simp [h]
  · simp only [Bool.and_eq_true, decide_eq_true_eq, not_and]
    intro _
    omega

/-- The pursuit statements on one axis: a step of `ENEMY_SPEED` towards the player,
except that an enemy exactly one below the player steps forward and back again. -/
theorem pursue_x (e : Enemy) (px py : Int) :
    (pursue e px py).x
      = (if e.x + 1 = px then e.x else if e.x < px then e.x + ENEMY_SPEED
          else if e.x > px then e.x - ENEMY_SPEED else e.x) ∧
    (pursue e px py).y
      = (if e.y + 1 = py then e.y else if e.y < py then e.y + ENEMY_SPEED
          else if e.y > py then e.y - ENEMY_SPEED else e.y) := by
  simp only [pursue, ENEMY_SPEED]
  constructor <;> split_ifs <;> omega

end Squarix
